import Mathlib

/-!
Verification of the observatory collector's core
(`src/raspberry-pi/collector.py`): the instrument health tracker, the
multi-instrument data store, the condition classifiers, the MQTT lora
handling, and the per-device identity-resolution (promotion) logic.

Python dictionaries are modelled as insertion-ordered association lists
`List (String × β)`: `d[k] = v` updates the value in place when the key
is present and appends otherwise, `d.update(other)` folds that
assignment over `other`, and iteration follows list order — exactly
CPython's documented dict semantics.  Python floats are modelled as
rationals: every numerator/denominator pair that can reach a threshold
comparison here (failure counts over windows of ≤ 10, the fixed
thresholds 0.2 and 0.8) rounds to the same double as the literal it is
compared with, so the rational comparisons agree with the float ones.
Blocking on a lock is modelled with `Option`: `none` means the call
never returns.
-/

namespace Collector

/-- `m[k]` on a Python dict: the value at the first (hence, for dicts
built by assignment, the only) binding of `k`. -/
def alookup {β : Type} (m : List (String × β)) (k : String) : Option β :=
  match m with
  | [] => none
  | (k', v) :: rest => if k' = k then some v else alookup rest k

/-- `k in m` on a Python dict. -/
def ahasKey {β : Type} (m : List (String × β)) (k : String) : Bool :=
  (alookup m k).isSome

/-- `m[k] = v` on a Python dict: replace in place when present,
append otherwise. -/
def aset {β : Type} (m : List (String × β)) (k : String) (v : β) :
    List (String × β) :=
  if ahasKey m k then m.map (fun p => if p.1 = k then (k, v) else p)
  else m ++ [(k, v)]

/-- `m.update(kw)` on a Python dict: assign every binding of `kw`
into `m`, in order. -/
def adictUpdate {β : Type} (m kw : List (String × β)) :
    List (String × β) :=
  kw.foldl (fun acc p => aset acc p.1 p.2) m

-- ═══════════════════════════════════════════════════════════════════
-- INSTRUMENT HEALTH TRACKER  (collector.py lines 102-179)
-- ═══════════════════════════════════════════════════════════════════

/-- Health status strings returned by `get_status`. -/
inductive HealthStatus where
  | HEALTHY
  | DEGRADED
  | OFFLINE
deriving DecidableEq, Repr

/-- Per-code success history: booleans, most-recent-last,
`True` = success. -/
abbrev History := List Bool

/-- `InstrumentHealthTracker._history`: code → list of booleans. -/
structure InstrumentHealthTracker where
  history : List (String × History)
deriving Repr

namespace InstrumentHealthTracker

def WINDOW_SIZE : Nat := 10

def MIN_READINGS : Nat := 3

def DEGRADED_THRESHOLD : ℚ := 2/10

def OFFLINE_THRESHOLD : ℚ := 8/10

/-- `self._history.get(code, [])`. -/
def historyOf (t : InstrumentHealthTracker) (code : String) : History :=
  (alookup t.history code).getD []

/-- Python `l[-n:]`: the last `min n l.length` elements. -/
def takeLast {α : Type} (n : Nat) (l : List α) : List α :=
  l.drop (l.length - n)

/-- Shared body of `record_success` / `record_failure`: append the
outcome, keep only the last `WINDOW_SIZE` readings. -/
def recordOutcome (t : InstrumentHealthTracker) (code : String)
    (ok : Bool) : InstrumentHealthTracker :=
  ⟨aset t.history code (takeLast WINDOW_SIZE (historyOf t code ++ [ok]))⟩

def record_success (t : InstrumentHealthTracker) (code : String) :
    InstrumentHealthTracker := recordOutcome t code true

def record_failure (t : InstrumentHealthTracker) (code : String) :
    InstrumentHealthTracker := recordOutcome t code false

/-- `sum(1 for success in history if not success)`. -/
def failureCount (h : History) : Nat := (h.filter (fun b => !b)).length

/-- `failure_rate = failure_count / len(history)`, as computed in both
`get_status` and `get_failure_rate`. -/
def failureRate (h : History) : ℚ :=
  (failureCount h : ℚ) / (h.length : ℚ)

/-- `get_status`: grace period below `MIN_READINGS`, then threshold
evaluation on `failure_count / len(history)`. -/
def get_status (t : InstrumentHealthTracker) (code : String) :
    HealthStatus :=
  if (historyOf t code).length < MIN_READINGS then .HEALTHY
  else if failureRate (historyOf t code) ≥ OFFLINE_THRESHOLD then .OFFLINE
  else if failureRate (historyOf t code) ≥ DEGRADED_THRESHOLD then .DEGRADED
  else .HEALTHY

/-- `get_failure_rate`: 0.0 on empty history, else the windowed rate. -/
def get_failure_rate (t : InstrumentHealthTracker) (code : String) : ℚ :=
  if (historyOf t code).isEmpty then 0
  else failureRate (historyOf t code)

/-- A method body running while the tracker's non-reentrant
`threading.Lock` is already held blocks forever on `with self._lock`;
`none` models that the call never returns. -/
def get_status_locked (locked : Bool) (t : InstrumentHealthTracker)
    (code : String) : Option HealthStatus :=
  if locked then none else some (get_status t code)

/-- `get_all_statuses`: acquires `self._lock`, then evaluates
`{code: self.get_status(code) for code in self._history.keys()}` — each
inner `get_status` call re-acquires the same non-reentrant lock, so it
runs with `locked := true`. -/
def get_all_statuses (t : InstrumentHealthTracker) :
    Option (List (String × HealthStatus)) :=
  (t.history.map Prod.fst).mapM
    (fun code => (get_status_locked true t code).map (fun s => (code, s)))

end InstrumentHealthTracker

-- ═══════════════════════════════════════════════════════════════════
-- MULTI-INSTRUMENT DATA STORE  (collector.py lines 190-247)
-- ═══════════════════════════════════════════════════════════════════

/-- JSON-like values held in an instrument entry.  `vNull` is Python's
`None`; numbers are split by how readers produce them (int fields vs
float fields), compared only for equality here; `vDict` covers the
`lora_sensors` sub-mapping and the per-sensor records. -/
inductive Value where
  | vNull
  | vInt (n : Int)
  | vRat (q : ℚ)
  | vStr (s : String)
  | vDict (m : List (String × Value))

/-- One instrument's entry: a Python dict field-name → value. -/
abbrev Entry := List (String × Value)

/-- `isinstance(value, dict)`. -/
def Value.isDict : Value → Bool
  | .vDict _ => true
  | _ => false

/-- `value is None`. -/
def Value.isNull : Value → Bool
  | .vNull => true
  | _ => false

/-- `MultiInstrumentDataStore._instruments`: code → entry dict, in
insertion order. -/
structure MultiInstrumentDataStore where
  instruments : List (String × Entry)

namespace MultiInstrumentDataStore

/-- `update(instrument_code, **kwargs)`: create the entry if absent,
`dict.update` the kwargs into it, then unconditionally set
`"timestamp"` to the current time (`now`, the iso-format string of the
call's wall-clock time). -/
def update (s : MultiInstrumentDataStore) (instrument_code : String)
    (kwargs : Entry) (now : String) : MultiInstrumentDataStore :=
  let entry := (alookup s.instruments instrument_code).getD []
  let entry := adictUpdate entry kwargs
  let entry := aset entry "timestamp" (.vStr now)
  ⟨aset s.instruments instrument_code entry⟩

/-- `get(instrument_code)`: the entry's copy, `{}` if unknown. -/
def get (s : MultiInstrumentDataStore) (instrument_code : String) :
    Entry :=
  (alookup s.instruments instrument_code).getD []

/-- `get_all()`: copy of the whole mapping. -/
def get_all (s : MultiInstrumentDataStore) : List (String × Entry) :=
  s.instruments

/-- The `combined` template built at the top of `get_combined`. -/
def combinedInit : Entry :=
  [("timestamp", .vNull), ("temperature", .vNull), ("humidity", .vNull),
   ("pressure", .vNull), ("dewpoint", .vNull), ("wind_speed", .vNull),
   ("wind_gust", .vNull), ("wind_direction", .vNull),
   ("rain_rate", .vNull), ("cloud_condition", .vStr "Unknown"),
   ("rain_condition", .vStr "Unknown"), ("wind_condition", .vStr "Unknown"),
   ("day_condition", .vStr "Unknown"), ("sky_temp", .vNull),
   ("ambient_temp", .vNull), ("sky_quality", .vNull),
   ("sqm_temperature", .vNull), ("lora_sensors", .vDict [])]

/-- `combined["lora_sensors"].update(value)`.  The template always
holds `"lora_sensors"` as a dict and only dict values reach this merge,
so the other arms (where the source would raise) are left as the
identity on the stored value. -/
def mergeLora : Option Value → List (String × Value) → Value
  | some (.vDict c), d => .vDict (adictUpdate c d)
  | some o, _ => o
  | none, d => .vDict d

/-- One iteration of `get_combined`'s inner loop over `(key, value)`:
`lora_sensors` dicts are merged into the accumulator; otherwise a
non-`None` value overwrites the field when the template knows the key;
everything else is skipped. -/
def combineField (c : Entry) (k : String) (v : Value) : Entry :=
  if k = "lora_sensors" ∧ v.isDict = true then
    aset c "lora_sensors" (mergeLora (alookup c "lora_sensors") (
      match v with | .vDict d => d | _ => []))
  else if v.isNull = false ∧ ahasKey c k = true then aset c k v
  else c

/-- `get_combined()`: fold every entry's fields over the template, in
the store's (insertion) iteration order. -/
def get_combined (s : MultiInstrumentDataStore) : Entry :=
  s.instruments.foldl
    (fun c p => p.2.foldl (fun c kv => combineField c kv.1 kv.2) c)
    combinedInit

end MultiInstrumentDataStore

-- ═══════════════════════════════════════════════════════════════════
-- MQTT LORA BRANCH of on_mqtt_message  (collector.py lines 302-311)
-- ═══════════════════════════════════════════════════════════════════

/-- `current.get("lora_sensors", {})`, restricted to the dict case the
program maintains (the store only ever holds dict values there). -/
def loraOf (e : Entry) : List (String × Value) :=
  match alookup e "lora_sensors" with
  | some (.vDict d) => d
  | _ => []

/-- The `"lora" in topic` branch of `on_mqtt_message`: read the current
entry for the MQTT-weather code, take its `lora_sensors` sub-dict (`{}`
when absent), assign `lora_sensors[sensor_id] = {**payload,
"last_update": now}`, and store the result back through
`data_store.update(code, lora_sensors=lora_sensors)`. -/
def on_mqtt_message_lora (s : MultiInstrumentDataStore)
    (weather_code sensor_id : String) (payload : Entry) (now : String) :
    MultiInstrumentDataStore :=
  let current := s.get weather_code
  let lora_sensors := loraOf current
  let record := aset payload "last_update" (.vStr now)
  let lora_sensors := aset lora_sensors sensor_id (.vDict record)
  s.update weather_code [("lora_sensors", .vDict lora_sensors)] now

-- ═══════════════════════════════════════════════════════════════════
-- CONDITION CLASSIFIERS  (collector.py lines 393-420)
-- ═══════════════════════════════════════════════════════════════════

inductive CloudCondition where
  | Clear
  | Cloudy
  | VeryCloudy
deriving DecidableEq, Repr

inductive RainCondition where
  | Dry
  | Wet
  | Rain
deriving DecidableEq, Repr

/-- `classify_cloud_condition(sky_temp, ambient_temp)`; the source's
`delta = sky_temp - ambient_temp` is inlined. -/
def classify_cloud_condition (sky_temp ambient_temp : ℚ) :
    CloudCondition :=
  if sky_temp - ambient_temp < -25 then .Clear
  else if sky_temp - ambient_temp < -15 then .Cloudy
  else .VeryCloudy

/-- `classify_rain_condition(rain_sensor)`. -/
def classify_rain_condition (rain_sensor : Int) : RainCondition :=
  if rain_sensor > 2500 then .Dry
  else if rain_sensor > 1500 then .Wet
  else .Rain

-- ═══════════════════════════════════════════════════════════════════
-- IDENTITY RESOLUTION inside the device-reader loops
-- (collector.py lines 479-494, 609-621, 713-723)
-- ═══════════════════════════════════════════════════════════════════

/-- Per-reader identity-resolution state: the instrument code in use
and the `serial_obtained` / `lsid_obtained` flag guarding the lookup. -/
structure ResolverState where
  code : String
  promoted : Bool
deriving DecidableEq, Repr

/-- Whether the reader attempts a hardware-id lookup on (re)connection:
all three readers guard the lookup with `if not <flag>_obtained`. -/
def attemptsLookup (st : ResolverState) : Bool := !st.promoted

/-- `read_sqm_device`, lines 487-494: on a new connection, if the
serial lookup succeeds the code becomes `sqm-<serial>` and
`serial_obtained = True`; on a failed lookup the flag is left `False`
(only a log line runs), so the state is unchanged. -/
def sqm_resolve_step (st : ResolverState)
    (lookup_result : Option String) : ResolverState :=
  if st.promoted then st
  else
    match lookup_result with
    | some serial => ⟨"sqm-" ++ serial, true⟩
    | none => st

/-- `read_weatherlink_device`, lines 610-621: on a successful lookup
the code becomes `davis-<lsid>`; on a failed lookup
`lsid_obtained = True` is set anyway (the `# Don't keep trying`
branch). -/
def weatherlink_resolve_step (st : ResolverState)
    (lookup_result : Option String) : ResolverState :=
  if st.promoted then st
  else
    match lookup_result with
    | some lsid => ⟨"davis-" ++ lsid, true⟩
    | none => ⟨st.code, true⟩

/-- `read_cloudwatcher_device`, lines 716-723: `serial_obtained = True`
is set after the lookup whether or not it produced a serial. -/
def cloudwatcher_resolve_step (st : ResolverState)
    (lookup_result : Option String) : ResolverState :=
  if st.promoted then st
  else
    match lookup_result with
    | some serial => ⟨"cw-" ++ serial, true⟩
    | none => ⟨st.code, true⟩

-- ═══════════════════════════════════════════════════════════════════
-- REACHABLE STORE STATES AND FOLD HELPERS
-- ═══════════════════════════════════════════════════════════════════

/-- The store's only mutating operation. -/
inductive StoreOp where
  | update (code : String) (kwargs : Entry) (now : String)

/-- Run a sequence of store operations. -/
def applyOps (s : MultiInstrumentDataStore) (ops : List StoreOp) :
    MultiInstrumentDataStore :=
  ops.foldl (fun s op => match op with | .update c kw n => s.update c kw n) s

/-- Every entry held by the store carries a `"timestamp"` key. -/
def entriesHaveTimestamp (s : MultiInstrumentDataStore) : Prop :=
  ∀ c e, alookup s.instruments c = some e → ahasKey e "timestamp" = true

/-- "Last non-null wins, null never overwrites": the scalar-field fold
of `get_combined`. -/
def scalarFold (i : Value) (vs : List Value) : Value :=
  vs.foldl (fun acc v => if v.isNull then acc else v) i

/-- Occurrences of field `k` inside one entry, in iteration order. -/
def entryValuesOf (k : String) (e : Entry) : List Value :=
  (e.filter (fun p => p.1 == k)).map Prod.snd

/-- Occurrences of field `k` across the whole store, in iteration
order. -/
def valuesOf (k : String) (s : MultiInstrumentDataStore) : List Value :=
  (s.instruments.map Prod.snd).flatMap (entryValuesOf k)

-- ═══════════════════════════════════════════════════════════════════
-- CONCRETE FIXTURES used by counterexamples and witnesses
-- ═══════════════════════════════════════════════════════════════════

/-- A tracker that recorded a single success for one instrument. -/
def trackerOne : InstrumentHealthTracker := ⟨[("sqm-1", [true])]⟩

/-- A ten-reading history with exactly 8 failures. -/
def trackerEightFailures : InstrumentHealthTracker :=
  ⟨[("cw-7", List.replicate 8 false ++ List.replicate 2 true)]⟩

/-- A ten-reading history with exactly 2 failures. -/
def trackerTwoFailures : InstrumentHealthTracker :=
  ⟨[("cw-7", List.replicate 2 false ++ List.replicate 8 true)]⟩

/-- A store whose MQTT-weather entry already holds one lora sensor. -/
def storeWithLora : MultiInstrumentDataStore :=
  ⟨[("wx-mqtt",
     [("lora_sensors", .vDict [("s1", .vInt 1)]),
      ("timestamp", .vStr "t0")])]⟩

/-- The C6 example store: instrument A has `temperature: 10` (plus a
lora sensor), instrument B has `temperature: null, humidity: 60` (plus
a different lora sensor). -/
def storeAB : MultiInstrumentDataStore :=
  ⟨[("A", [("temperature", .vInt 10),
           ("lora_sensors", .vDict [("la", .vInt 1)])]),
    ("B", [("temperature", .vNull), ("humidity", .vInt 60),
           ("lora_sensors", .vDict [("lb", .vInt 2)])])]⟩

/-- The C5 example: `update(code, temperature=20)` then
`update(code, humidity=50)` on a fresh store. -/
def storeTwoUpdates : MultiInstrumentDataStore :=
  ((MultiInstrumentDataStore.mk []).update "davis-1"
      [("temperature", .vInt 20)] "t1").update "davis-1"
    [("humidity", .vInt 50)] "t2"

/-- Eleven recorded outcomes for one instrument: one failure followed
by ten successes, so the failure falls out of the retained window. -/
def trackerEleven : InstrumentHealthTracker :=
  (List.replicate 10 true).foldl
    (fun t _ => t.record_success "sqm-1")
    ((InstrumentHealthTracker.mk []).record_failure "sqm-1")

-- ═══════════════════════════════════════════════════════════════════
-- ASSOCIATION-LIST LEMMAS
-- ═══════════════════════════════════════════════════════════════════

theorem alookup_map_set_eq {β : Type} (m : List (String × β)) (k : String)
    (v : β) (h : (alookup m k).isSome = true) :
    alookup (m.map (fun p => if p.1 = k then (k, v) else p)) k = some v := by
  induction m with
  | nil => simp [alookup] at h
  | cons p rest ih =>
    obtain ⟨ka, va⟩ := p
    by_cases hk : ka = k
    · subst hk
      have hp : (if (ka, va).1 = ka then (ka, v) else (ka, va)) = (ka, v) :=
        if_pos rfl
      rw [List.map_cons, hp]
      simp [alookup]
    · have hp : (if (ka, va).1 = k then (k, v) else (ka, va)) = (ka, va) := by
        simp [hk]
      rw [List.map_cons, hp]
      simp only [alookup] at h ⊢
      rw [if_neg hk] at h ⊢
      exact ih h

theorem alookup_map_set_ne {β : Type} (m : List (String × β))
    (k k' : String) (v : β) (h : k' ≠ k) :
    alookup (m.map (fun p => if p.1 = k then (k, v) else p)) k' =
      alookup m k' := by
  induction m with
  | nil => simp [alookup]
  | cons p rest ih =>
    obtain ⟨ka, va⟩ := p
    by_cases hk : ka = k
    · subst hk
      have hp : (if (ka, va).1 = ka then (ka, v) else (ka, va)) = (ka, v) := by
        simp
      rw [List.map_cons, hp]
      simp only [alookup]
      rw [if_neg (fun hc => h hc.symm), if_neg (fun hc => h hc.symm)]
      exact ih
    · have hp : (if (ka, va).1 = k then (k, v) else (ka, va)) = (ka, va) := by
        simp [hk]
      rw [List.map_cons, hp]
      simp only [alookup]
      by_cases hk' : ka = k'
      · simp [hk']
      · rw [if_neg hk', if_neg hk']
        exact ih

theorem alookup_append_single_ne {β : Type} (m : List (String × β))
    (k k' : String) (v : β) (h : k' ≠ k) :
    alookup (m ++ [(k, v)]) k' = alookup m k' := by
  induction m with
  | nil =>
    simp only [List.nil_append, alookup]
    rw [if_neg (fun hc => h hc.symm)]
  | cons p rest ih =>
    obtain ⟨ka, va⟩ := p
    simp only [List.cons_append, alookup]
    by_cases hk' : ka = k'
    · simp [hk']
    · rw [if_neg hk', if_neg hk']
      exact ih

theorem alookup_aset_eq {β : Type} (m : List (String × β)) (k : String)
    (v : β) : alookup (aset m k v) k = some v := by
  unfold aset ahasKey
  by_cases h : (alookup m k).isSome = true
  · rw [if_pos h]
    exact alookup_map_set_eq m k v h
  · rw [if_neg h]
    induction m with
    | nil => simp [alookup]
    | cons p rest ih =>
      obtain ⟨ka, va⟩ := p
      by_cases hk : ka = k
      · exfalso
        apply h
        simp [alookup, hk]
      · simp only [List.cons_append, alookup] at h ⊢
        rw [if_neg hk] at h ⊢
        exact ih h

theorem alookup_aset_ne {β : Type} (m : List (String × β)) (k k' : String)
    (v : β) (h : k' ≠ k) : alookup (aset m k v) k' = alookup m k' := by
  unfold aset
  by_cases hm : ahasKey m k = true
  · rw [if_pos hm]
    exact alookup_map_set_ne m k k' v h
  · rw [if_neg hm]
    exact alookup_append_single_ne m k k' v h

theorem ahasKey_aset {β : Type} (m : List (String × β)) (k k' : String)
    (v : β) (h : ahasKey m k' = true) : ahasKey (aset m k v) k' = true := by
  by_cases hk : k' = k
  · subst hk; simp [ahasKey, alookup_aset_eq]
  · simpa [ahasKey, alookup_aset_ne m k k' v hk] using h

theorem ahasKey_aset_self {β : Type} (m : List (String × β)) (k : String)
    (v : β) : ahasKey (aset m k v) k = true := by
  simp [ahasKey, alookup_aset_eq]

theorem alookup_adictUpdate_not_mem {β : Type} (kw m : List (String × β))
    (k : String) (h : ∀ p ∈ kw, p.1 ≠ k) :
    alookup (adictUpdate m kw) k = alookup m k := by
  induction kw generalizing m with
  | nil => rfl
  | cons p rest ih =>
    simp only [adictUpdate, List.foldl_cons]
    rw [show (List.foldl (fun acc q => aset acc q.1 q.2) (aset m p.1 p.2)
      rest) = adictUpdate (aset m p.1 p.2) rest from rfl]
    rw [ih (aset m p.1 p.2) (fun q hq => h q (List.mem_cons_of_mem _ hq))]
    exact alookup_aset_ne m p.1 k p.2
      (fun hc => h p (List.mem_cons_self _ _) hc.symm)

-- ═══════════════════════════════════════════════════════════════════
-- HEALTH TRACKER LEMMAS
-- ═══════════════════════════════════════════════════════════════════

open InstrumentHealthTracker in
theorem historyOf_recordOutcome (t : InstrumentHealthTracker)
    (code : String) (ok : Bool) :
    (recordOutcome t code ok).historyOf code =
      takeLast WINDOW_SIZE (t.historyOf code ++ [ok]) := by
  simp [recordOutcome, historyOf, alookup_aset_eq]

-- ═══════════════════════════════════════════════════════════════════
-- CLAIM THEOREMS
-- ═══════════════════════════════════════════════════════════════════

open InstrumentHealthTracker MultiInstrumentDataStore

/-- C1: for a recorded history of length ≥ 3, `get_status` returns
`OFFLINE` iff `failures/len(history) ≥ 0.8`, `DEGRADED` iff
`0.2 ≤ failures/len(history) < 0.8`, and `HEALTHY` iff the rate is
below 0.2; for a history of length < 3 it returns `HEALTHY` regardless
of the outcomes; and at the spec's boundaries, 8 failures out of 10
give `OFFLINE` and 2 failures out of 10 give `DEGRADED`. -/
theorem C1_get_status_thresholds :
    (∀ (t : InstrumentHealthTracker) (code : String),
      (t.historyOf code).length < 3 → t.get_status code = .HEALTHY) ∧
    (∀ (t : InstrumentHealthTracker) (code : String),
      3 ≤ (t.historyOf code).length →
      (t.get_status code = .OFFLINE ↔
        (8 : ℚ)/10 ≤ failureRate (t.historyOf code)) ∧
      (t.get_status code = .DEGRADED ↔
        (2 : ℚ)/10 ≤ failureRate (t.historyOf code) ∧
          failureRate (t.historyOf code) < (8 : ℚ)/10) ∧
      (t.get_status code = .HEALTHY ↔
        failureRate (t.historyOf code) < (2 : ℚ)/10)) ∧
    get_status trackerEightFailures "cw-7" = .OFFLINE ∧
    get_status trackerTwoFailures "cw-7" = .DEGRADED := by
  refine ⟨?_, ?_, ?_, ?_⟩
  · intro t code hlen
    unfold get_status
    rw [if_pos (by simpa [MIN_READINGS] using hlen)]
  · intro t code hlen
    have hm : ¬ (t.historyOf code).length < MIN_READINGS := by
      simp only [MIN_READINGS]
      omega
    unfold get_status
    simp only [OFFLINE_THRESHOLD, DEGRADED_THRESHOLD, ge_iff_le]
    rw [if_neg hm]
    by_cases h1 : (8 : ℚ)/10 ≤ failureRate (t.historyOf code)
    · rw [if_pos h1]
      exact ⟨⟨fun _ => h1, fun _ => rfl⟩,
        ⟨fun hc => absurd hc (by decide),
         fun hb => absurd h1 (not_le.mpr hb.2)⟩,
        ⟨fun hc => absurd hc (by decide),
         fun hb => absurd h1 (not_le.mpr (lt_trans hb (by norm_num)))⟩⟩
    · rw [if_neg h1]
      by_cases h2 : (2 : ℚ)/10 ≤ failureRate (t.historyOf code)
      · rw [if_pos h2]
        exact ⟨⟨fun hc => absurd hc (by decide), fun hb => absurd hb h1⟩,
          ⟨fun _ => ⟨h2, lt_of_not_le h1⟩, fun _ => rfl⟩,
          ⟨fun hc => absurd hc (by decide),
           fun hb => absurd h2 (not_le.mpr hb)⟩⟩
      · rw [if_neg h2]
        exact ⟨⟨fun hc => absurd hc (by decide), fun hb => absurd hb h1⟩,
          ⟨fun hc => absurd hc (by decide), fun hb => absurd hb.1 h2⟩,
          ⟨fun _ => lt_of_not_le h2, fun _ => rfl⟩⟩
  · simp only [get_status, historyOf, trackerEightFailures, alookup,
      failureRate, failureCount, MIN_READINGS, OFFLINE_THRESHOLD,
      DEGRADED_THRESHOLD]
    norm_num
  · simp only [get_status, historyOf, trackerTwoFailures, alookup,
      failureRate, failureCount, MIN_READINGS, OFFLINE_THRESHOLD,
      DEGRADED_THRESHOLD]
    norm_num

/-- C1 witness: both quantified parts applied at concrete trackers,
with their hypotheses discharged there. -/
theorem C1_get_status_thresholds_witness :
    get_status trackerOne "sqm-1" = .HEALTHY ∧
    get_status trackerEightFailures "cw-7" = .OFFLINE :=
  ⟨C1_get_status_thresholds.1 trackerOne "sqm-1" (by
      simp [historyOf, trackerOne, alookup]),
   (C1_get_status_thresholds.2.1 trackerEightFailures "cw-7" (by
      simp [historyOf, trackerEightFailures, alookup])).1.mpr (by
      simp only [historyOf, trackerEightFailures, alookup, failureRate,
        failureCount]
      norm_num)⟩

/-- C2: the claim says `get_all_statuses` terminates and yields the
per-code `get_status` snapshot.  The code acquires the tracker's
non-reentrant `threading.Lock` and then calls `self.get_status`, which
blocks re-acquiring it: with any recorded history the call deadlocks
(modelled as `none`), even though the per-code `get_status` the snapshot
should contain is well defined. -/
theorem C2_get_all_statuses_deadlocks :
    get_all_statuses trackerOne = none ∧
    get_status trackerOne "sqm-1" = .HEALTHY :=
  ⟨rfl, by simp [get_status, historyOf, trackerOne, alookup, MIN_READINGS]⟩

/-- C4: recorded history never exceeds 10 entries; below the cap a
record appends (order preserved, most-recent-last); at the cap the
oldest retained outcome is evicted; and the failure rate reflects only
the retained window — after one failure and then ten successes the
failure is outside the window and the rate is 0. -/
theorem C4_history_window :
    (∀ (t : InstrumentHealthTracker) (code : String) (ok : Bool),
      ((recordOutcome t code ok).historyOf code).length ≤ 10) ∧
    (∀ (t : InstrumentHealthTracker) (code : String) (ok : Bool),
      (t.historyOf code).length < 10 →
      (recordOutcome t code ok).historyOf code =
        t.historyOf code ++ [ok]) ∧
    (∀ (t : InstrumentHealthTracker) (code : String) (ok : Bool),
      (t.historyOf code).length = 10 →
      (recordOutcome t code ok).historyOf code =
        (t.historyOf code).tail ++ [ok]) ∧
    trackerEleven.historyOf "sqm-1" = List.replicate 10 true ∧
    trackerEleven.get_failure_rate "sqm-1" = 0 := by
  refine ⟨?_, ?_, ?_, ?_, ?_⟩
  · intro t code ok
    rw [historyOf_recordOutcome]
    simp only [takeLast, WINDOW_SIZE, List.length_drop]
    omega
  · intro t code ok hlen
    rw [historyOf_recordOutcome]
    simp only [takeLast, WINDOW_SIZE]
    rw [show (t.historyOf code ++ [ok]).length - 10 = 0 by
      simp only [List.length_append, List.length_singleton]
      omega]
    exact List.drop_zero _
  · intro t code ok hlen
    rw [historyOf_recordOutcome]
    simp only [takeLast, WINDOW_SIZE]
    rw [show (t.historyOf code ++ [ok]).length - 10 = 1 by
      simp only [List.length_append, List.length_singleton]
      omega]
    rw [List.drop_append_of_le_length (by omega), List.drop_one]
  · rfl
  · have h : trackerEleven.historyOf "sqm-1" = List.replicate 10 true := rfl
    simp only [get_failure_rate, h, failureRate, failureCount]
    norm_num

/-- C4 witness: the quantified parts applied to a concrete tracker with
a full ten-reading window. -/
theorem C4_history_window_witness :
    ((recordOutcome trackerEightFailures "cw-7" true).historyOf
        "cw-7").length ≤ 10 ∧
    (recordOutcome trackerOne "sqm-1" false).historyOf "sqm-1" =
      trackerOne.historyOf "sqm-1" ++ [false] ∧
    (recordOutcome trackerEightFailures "cw-7" true).historyOf "cw-7" =
      (trackerEightFailures.historyOf "cw-7").tail ++ [true] :=
  ⟨C4_history_window.1 trackerEightFailures "cw-7" true,
   C4_history_window.2.1 trackerOne "sqm-1" false (by
     simp [historyOf, trackerOne, alookup]),
   C4_history_window.2.2.1 trackerEightFailures "cw-7" true (by
     simp [historyOf, trackerEightFailures, alookup])⟩

/-- C7: the cloud classifier returns `Clear` iff
`sky_temp - ambient_temp < -25`, `Cloudy` iff the delta is in
`[-25, -15)`, `VeryCloudy` otherwise; the rain classifier returns `Dry`
iff `value > 2500`, `Wet` iff `1500 < value ≤ 2500`, `Rain` otherwise. -/
theorem C7_classifier_thresholds :
    (∀ sky_temp ambient_temp : ℚ,
      (classify_cloud_condition sky_temp ambient_temp = .Clear ↔
        sky_temp - ambient_temp < -25) ∧
      (classify_cloud_condition sky_temp ambient_temp = .Cloudy ↔
        -25 ≤ sky_temp - ambient_temp ∧ sky_temp - ambient_temp < -15) ∧
      (classify_cloud_condition sky_temp ambient_temp = .VeryCloudy ↔
        -15 ≤ sky_temp - ambient_temp)) ∧
    (∀ v : Int,
      (classify_rain_condition v = .Dry ↔ 2500 < v) ∧
      (classify_rain_condition v = .Wet ↔ 1500 < v ∧ v ≤ 2500) ∧
      (classify_rain_condition v = .Rain ↔ v ≤ 1500)) := by
  refine ⟨fun s a => ?_, fun v => ?_⟩
  · unfold classify_cloud_condition
    by_cases h1 : s - a < -25
    · rw [if_pos h1]
      exact ⟨⟨fun _ => h1, fun _ => rfl⟩,
        ⟨fun hc => absurd hc (by decide),
         fun hb => absurd hb.1 (not_le.mpr h1)⟩,
        ⟨fun hc => absurd hc (by decide),
         fun hb => absurd hb (not_le.mpr (by linarith))⟩⟩
    · by_cases h2 : s - a < -15
      · rw [if_neg h1, if_pos h2]
        exact ⟨⟨fun hc => absurd hc (by decide), fun hb => absurd hb h1⟩,
          ⟨fun _ => ⟨not_lt.mp h1, h2⟩, fun _ => rfl⟩,
          ⟨fun hc => absurd hc (by decide),
           fun hb => absurd hb (not_le.mpr h2)⟩⟩
      · rw [if_neg h1, if_neg h2]
        exact ⟨⟨fun hc => absurd hc (by decide), fun hb => absurd hb h1⟩,
          ⟨fun hc => absurd hc (by decide), fun hb => absurd hb.2 h2⟩,
          ⟨fun _ => not_lt.mp h2, fun _ => rfl⟩⟩
  · unfold classify_rain_condition
    by_cases h1 : v > 2500
    · rw [if_pos h1]
      exact ⟨⟨fun _ => h1, fun _ => rfl⟩,
        ⟨fun hc => absurd hc (by decide), fun hb => absurd h1 (by omega)⟩,
        ⟨fun hc => absurd hc (by decide), fun hb => absurd h1 (by omega)⟩⟩
    · by_cases h2 : v > 1500
      · rw [if_neg h1, if_pos h2]
        exact ⟨⟨fun hc => absurd hc (by decide), fun hb => absurd hb h1⟩,
          ⟨fun _ => ⟨h2, by omega⟩, fun _ => rfl⟩,
          ⟨fun hc => absurd hc (by decide), fun hb => absurd h2 (by omega)⟩⟩
      · rw [if_neg h1, if_neg h2]
        exact ⟨⟨fun hc => absurd hc (by decide), fun hb => absurd hb h1⟩,
          ⟨fun hc => absurd hc (by decide), fun hb => absurd hb.1 h2⟩,
          ⟨fun _ => by omega, fun _ => rfl⟩⟩

/-- C8: queries with an unknown instrument code return empty/default
results and never fail: `get` gives an empty reading, `get_failure_rate`
gives 0 (and is in [0,1] for every code), `get_status` gives `HEALTHY`. -/
theorem C8_unknown_code_defaults :
    (∀ (s : MultiInstrumentDataStore) (code : String),
      alookup s.instruments code = none → s.get code = []) ∧
    (∀ (t : InstrumentHealthTracker) (code : String),
      t.historyOf code = [] → t.get_failure_rate code = 0) ∧
    (∀ (t : InstrumentHealthTracker) (code : String),
      0 ≤ t.get_failure_rate code ∧ t.get_failure_rate code ≤ 1) ∧
    (∀ (t : InstrumentHealthTracker) (code : String),
      t.historyOf code = [] → t.get_status code = .HEALTHY) := by
  refine ⟨?_, ?_, ?_, ?_⟩
  · intro s code h
    simp [MultiInstrumentDataStore.get, h]
  · intro t code h
    simp [get_failure_rate, h]
  · intro t code
    unfold get_failure_rate
    by_cases h : (t.historyOf code).isEmpty
    · rw [if_pos h]
      norm_num
    · rw [if_neg h]
      have hlen : 0 < (t.historyOf code).length := by
        cases hh : t.historyOf code with
        | nil => rw [hh] at h; simp at h
        | cons a l => simp
      constructor
      · exact div_nonneg (by positivity) (by positivity)
      · rw [failureRate, div_le_one (by positivity)]
        exact_mod_cast List.length_filter_le _ _
  · intro t code h
    simp [get_status, h, MIN_READINGS]

/-- C8 witness: the four parts applied at an empty store, an empty
tracker and a concrete tracker. -/
theorem C8_unknown_code_defaults_witness :
    (MultiInstrumentDataStore.mk []).get "nope" = [] ∧
    (InstrumentHealthTracker.mk []).get_failure_rate "nope" = 0 ∧
    (0 ≤ trackerOne.get_failure_rate "sqm-1" ∧
      trackerOne.get_failure_rate "sqm-1" ≤ 1) ∧
    (InstrumentHealthTracker.mk []).get_status "nope" = .HEALTHY :=
  ⟨C8_unknown_code_defaults.1 ⟨[]⟩ "nope" rfl,
   C8_unknown_code_defaults.2.1 ⟨[]⟩ "nope" rfl,
   C8_unknown_code_defaults.2.2.1 trackerOne "sqm-1",
   C8_unknown_code_defaults.2.2.2 ⟨[]⟩ "nope" rfl⟩

/-- C9 is false as stated: in the SQM reader, a failed serial lookup
leaves `serial_obtained = False` (only a log line runs), so promotion
is not marked complete and the next connection attempts the lookup
again. -/
theorem C9_sqm_retries_counterexample :
    (sqm_resolve_step ⟨"sqm-192-168-1-5", false⟩ none).promoted = false ∧
    attemptsLookup (sqm_resolve_step ⟨"sqm-192-168-1-5", false⟩ none) =
      true :=
  ⟨rfl, rfl⟩

/-- C9 amended: the WeatherLink and Cloudwatcher readers mark promotion
complete after a failed hardware-id lookup, keep the address-derived
code, and — like every promoted reader — never re-attempt the lookup or
change state again; the SQM reader instead leaves promotion incomplete
after a failed lookup and re-attempts on the next connection. -/
theorem C9_promotion_semantics :
    (∀ st : ResolverState, st.promoted = false →
      (weatherlink_resolve_step st none).promoted = true ∧
      (weatherlink_resolve_step st none).code = st.code ∧
      (cloudwatcher_resolve_step st none).promoted = true ∧
      (cloudwatcher_resolve_step st none).code = st.code) ∧
    (∀ (st : ResolverState) (r : Option String), st.promoted = true →
      sqm_resolve_step st r = st ∧ weatherlink_resolve_step st r = st ∧
      cloudwatcher_resolve_step st r = st ∧ attemptsLookup st = false) ∧
    (∀ st : ResolverState, st.promoted = false →
      sqm_resolve_step st none = st ∧
      attemptsLookup (sqm_resolve_step st none) = true) := by
  refine ⟨fun st h => ?_, fun st r h => ?_, fun st h => ?_⟩ <;>
    simp [weatherlink_resolve_step, cloudwatcher_resolve_step,
      sqm_resolve_step, attemptsLookup, h]

/-- The entry read back for the updated code: the old entry (or `{}`),
`dict.update`d with the kwargs, with `"timestamp"` then overwritten. -/
theorem get_update_eq (s : MultiInstrumentDataStore)
    (code : String) (kwargs : Entry) (now : String) :
    (s.update code kwargs now).get code =
      aset (adictUpdate (s.get code) kwargs) "timestamp" (.vStr now) := by
  simp [MultiInstrumentDataStore.update, MultiInstrumentDataStore.get,
    alookup_aset_eq]

/-- C5: `update` merges the partial field set into the existing entry:
fields not named by the update keep their prior values, the timestamp
is refreshed to the update's time, and the spec's two-update example
ends with both fields present and the second update's timestamp. -/
theorem C5_update_merges :
    (∀ (s : MultiInstrumentDataStore) (code : String) (kwargs : Entry)
        (now k : String),
      (∀ p ∈ kwargs, p.1 ≠ k) → k ≠ "timestamp" →
      alookup ((s.update code kwargs now).get code) k =
        alookup (s.get code) k) ∧
    (∀ (s : MultiInstrumentDataStore) (code : String) (kwargs : Entry)
        (now : String),
      alookup ((s.update code kwargs now).get code) "timestamp" =
        some (.vStr now)) ∧
    alookup (storeTwoUpdates.get "davis-1") "temperature" =
      some (.vInt 20) ∧
    alookup (storeTwoUpdates.get "davis-1") "humidity" =
      some (.vInt 50) ∧
    alookup (storeTwoUpdates.get "davis-1") "timestamp" =
      some (.vStr "t2") := by
  refine ⟨?_, ?_, rfl, rfl, rfl⟩
  · intro s code kwargs now k hkw hts
    rw [get_update_eq, alookup_aset_ne _ _ _ _ hts,
      alookup_adictUpdate_not_mem _ _ _ hkw]
  · intro s code kwargs now
    rw [get_update_eq, alookup_aset_eq]

/-- C5 witness: both quantified parts applied at a concrete store and
update. -/
theorem C5_update_merges_witness :
    alookup ((storeWithLora.update "wx-mqtt" [("humidity", .vInt 5)]
        "t3").get "wx-mqtt") "lora_sensors" =
      alookup (storeWithLora.get "wx-mqtt") "lora_sensors" ∧
    alookup ((storeWithLora.update "wx-mqtt" [("humidity", .vInt 5)]
        "t3").get "wx-mqtt") "timestamp" = some (.vStr "t3") :=
  ⟨C5_update_merges.1 storeWithLora "wx-mqtt" [("humidity", .vInt 5)]
      "t3" "lora_sensors"
      (by intro p hp; rw [List.mem_singleton] at hp; subst hp; decide)
      (by decide),
   C5_update_merges.2.1 storeWithLora "wx-mqtt" [("humidity", .vInt 5)]
      "t3"⟩

/-- One `update` keeps the all-entries-carry-a-timestamp invariant. -/
theorem update_preserves_timestamps (s : MultiInstrumentDataStore)
    (code : String) (kwargs : Entry) (now : String)
    (h : entriesHaveTimestamp s) :
    entriesHaveTimestamp (s.update code kwargs now) := by
  intro c e he
  unfold MultiInstrumentDataStore.update at he
  by_cases hc : c = code
  · subst hc
    rw [alookup_aset_eq] at he
    cases he
    exact ahasKey_aset_self _ _ _
  · rw [alookup_aset_ne _ _ _ _ hc] at he
    exact h c e he

/-- A whole operation sequence keeps the timestamp invariant. -/
theorem applyOps_preserves_timestamps (ops : List StoreOp)
    (s : MultiInstrumentDataStore) (h : entriesHaveTimestamp s) :
    entriesHaveTimestamp (applyOps s ops) := by
  induction ops generalizing s with
  | nil => exact h
  | cons op rest ih =>
    cases op with
    | update c kw n =>
      exact ih (s.update c kw n) (update_preserves_timestamps s c kw n h)

/-- C10: every `update(code, fields)` stores a `"timestamp"` key set to
that call's time — even when `fields` itself supplies a `timestamp`
value, the caller-supplied value is overwritten — and consequently
every entry of every store reachable from empty by `update` calls
carries a `"timestamp"` key (what the data-push and heartbeat tasks
test to select active instruments). -/
theorem C10_timestamp_invariant :
    (∀ (s : MultiInstrumentDataStore) (code : String) (kwargs : Entry)
        (now : String),
      alookup ((s.update code kwargs now).get code) "timestamp" =
        some (.vStr now)) ∧
    alookup (((MultiInstrumentDataStore.mk []).update "cw-7"
        [("timestamp", .vStr "caller-supplied")] "t9").get "cw-7")
      "timestamp" = some (.vStr "t9") ∧
    (∀ ops : List StoreOp,
      entriesHaveTimestamp (applyOps ⟨[]⟩ ops)) := by
  refine ⟨?_, rfl, ?_⟩
  · intro s code kwargs now
    rw [get_update_eq, alookup_aset_eq]
  · intro ops
    exact applyOps_preserves_timestamps ops ⟨[]⟩
      (fun c e he => Option.noConfusion he)

/-- C10 witness: the invariant applied to a concrete operation
sequence and entry. -/
theorem C10_timestamp_invariant_witness :
    ahasKey [("timestamp", Value.vStr "t1")] "timestamp" = true :=
  C10_timestamp_invariant.2.2 [.update "sqm-1" [] "t1"] "sqm-1"
    [("timestamp", .vStr "t1")] rfl

/-- C3 is false as stated: `update` replaces the `lora_sensors`
sub-mapping wholesale.  Here the existing entry's sub-mapping holds key
`"s1"`, the update supplies a sub-mapping holding only `"s2"`, and the
resulting sub-mapping is exactly the supplied one — `"s1"`, present
only in the old sub-mapping, is not retained. -/
theorem C3_update_replaces_lora_counterexample :
    alookup ((storeWithLora.update "wx-mqtt"
        [("lora_sensors", .vDict [("s2", .vInt 2)])] "t1").get "wx-mqtt")
      "lora_sensors" = some (.vDict [("s2", .vInt 2)]) ∧
    alookup (loraOf (storeWithLora.get "wx-mqtt")) "s1" =
      some (.vInt 1) ∧
    alookup (loraOf ((storeWithLora.update "wx-mqtt"
        [("lora_sensors", .vDict [("s2", .vInt 2)])] "t1").get
        "wx-mqtt")) "s1" = none :=
  ⟨rfl, rfl, rfl⟩

/-- C3 amended: `update` stores the supplied `lora_sensors` value
wholesale; the key-by-key merge is performed by the MQTT lora handler,
which reads the current sub-mapping, inserts the new sensor's record,
and stores the merged mapping — so through that path keys present only
in the old sub-mapping are retained and the new sensor's record is
added. -/
theorem C3_lora_merge_in_mqtt_handler :
    (∀ (s : MultiInstrumentDataStore) (code : String) (v : Value)
        (now : String),
      alookup ((s.update code [("lora_sensors", v)] now).get code)
        "lora_sensors" = some v) ∧
    (∀ (s : MultiInstrumentDataStore)
        (wc sid : String) (payload : Entry) (now k : String), k ≠ sid →
      alookup (loraOf ((on_mqtt_message_lora s wc sid payload now).get
        wc)) k = alookup (loraOf (s.get wc)) k) ∧
    (∀ (s : MultiInstrumentDataStore)
        (wc sid : String) (payload : Entry) (now : String),
      alookup (loraOf ((on_mqtt_message_lora s wc sid payload now).get
        wc)) sid =
        some (.vDict (aset payload "last_update" (.vStr now)))) := by
  have hrepl : ∀ (s : MultiInstrumentDataStore) (code : String)
      (v : Value) (now : String),
      alookup ((s.update code [("lora_sensors", v)] now).get code)
        "lora_sensors" = some v := by
    intro s code v now
    rw [get_update_eq,
      alookup_aset_ne _ _ _ _ (by decide : "lora_sensors" ≠ "timestamp"),
      show adictUpdate (s.get code) [("lora_sensors", v)] =
        aset (s.get code) "lora_sensors" v from rfl,
      alookup_aset_eq]
  have hlora : ∀ (s : MultiInstrumentDataStore)
      (wc sid : String) (payload : Entry) (now : String),
      loraOf ((on_mqtt_message_lora s wc sid payload now).get wc) =
        aset (loraOf (s.get wc)) sid
          (.vDict (aset payload "last_update" (.vStr now))) := by
    intro s wc sid payload now
    unfold on_mqtt_message_lora loraOf
    rw [hrepl]
  refine ⟨hrepl, ?_, ?_⟩
  · intro s wc sid payload now k hk
    rw [hlora, alookup_aset_ne _ _ _ _ hk]
  · intro s wc sid payload now
    rw [hlora, alookup_aset_eq]

/-- C3 witness: the amended merge semantics applied at a concrete store
and message. -/
theorem C3_lora_merge_in_mqtt_handler_witness :
    alookup ((storeWithLora.update "wx-mqtt"
        [("lora_sensors", .vDict [])] "t4").get "wx-mqtt")
      "lora_sensors" = some (.vDict []) ∧
    alookup (loraOf ((on_mqtt_message_lora storeWithLora "wx-mqtt" "s2"
        [("t", .vInt 9)] "t5").get "wx-mqtt")) "s1" =
      alookup (loraOf (storeWithLora.get "wx-mqtt")) "s1" ∧
    alookup (loraOf ((on_mqtt_message_lora storeWithLora "wx-mqtt" "s2"
        [("t", .vInt 9)] "t5").get "wx-mqtt")) "s2" =
      some (.vDict (aset [("t", .vInt 9)] "last_update" (.vStr "t5"))) :=
  ⟨C3_lora_merge_in_mqtt_handler.1 storeWithLora "wx-mqtt" (.vDict [])
      "t4",
   C3_lora_merge_in_mqtt_handler.2.1 storeWithLora "wx-mqtt" "s2"
      [("t", .vInt 9)] "t5" "s1" (by decide),
   C3_lora_merge_in_mqtt_handler.2.2 storeWithLora "wx-mqtt" "s2"
      [("t", .vInt 9)] "t5"⟩

/-- `combineField` leaves every scalar key other than the one being
processed untouched. -/
theorem alookup_combineField_ne (c : Entry) (k k' : String) (v : Value)
    (hk : k ≠ "lora_sensors") (hkk : k' ≠ k) :
    alookup (combineField c k' v) k = alookup c k := by
  unfold combineField
  split_ifs with hA hB
  · exact alookup_aset_ne _ _ _ _ hk
  · exact alookup_aset_ne _ _ _ _ (fun hc => hkk hc.symm)
  · rfl

/-- Folding one entry over the accumulator updates a scalar key by
"last non-null wins" over that entry's occurrences of the key. -/
theorem alookup_foldl_combine (e : Entry) (c : Entry) (k : String)
    (cur : Value) (hk : k ≠ "lora_sensors")
    (hcur : alookup c k = some cur) :
    alookup (e.foldl (fun c kv => combineField c kv.1 kv.2) c) k =
      some (scalarFold cur (entryValuesOf k e)) := by
  induction e generalizing c cur with
  | nil => simpa [entryValuesOf, scalarFold] using hcur
  | cons kv rest ih =>
    obtain ⟨k', v⟩ := kv
    rw [List.foldl_cons]
    by_cases hkk : k' = k
    · subst hkk
      by_cases hv : v.isNull = true
      · have hveq : v = .vNull := by
          cases v <;> simp_all [Value.isNull]
        subst hveq
        have hcf : combineField c k' .vNull = c := by
          simp [combineField, Value.isDict, Value.isNull]
        have hvals : entryValuesOf k' ((k', Value.vNull) :: rest) =
            Value.vNull :: entryValuesOf k' rest := by
          simp [entryValuesOf]
        have hsf : scalarFold cur (Value.vNull :: entryValuesOf k' rest) =
            scalarFold cur (entryValuesOf k' rest) := by
          simp [scalarFold, Value.isNull]
        rw [hcf, hvals, hsf]
        exact ih c cur hcur
      · have hcf : combineField c k' v = aset c k' v := by
          unfold combineField
          rw [if_neg (fun hA => hk hA.1),
            if_pos ⟨Bool.eq_false_iff.mpr hv, by simp [ahasKey, hcur]⟩]
        have hvals : entryValuesOf k' ((k', v) :: rest) =
            v :: entryValuesOf k' rest := by
          simp [entryValuesOf]
        have hsf : scalarFold cur (v :: entryValuesOf k' rest) =
            scalarFold v (entryValuesOf k' rest) := by
          simp [scalarFold, Bool.eq_false_iff.mpr hv]
        rw [hcf, hvals, hsf]
        exact ih (aset c k' v) v (alookup_aset_eq _ _ _)
    · have h1 : alookup (combineField c k' v) k = some cur := by
        rw [alookup_combineField_ne c k k' v hk hkk]
        exact hcur
      have hvals : entryValuesOf k ((k', v) :: rest) =
          entryValuesOf k rest := by
        simp [entryValuesOf, hkk]
      rw [hvals]
      exact ih (combineField c k' v) cur h1

/-- Folding every instrument over the accumulator updates a scalar key
by "last non-null wins" over the whole iteration order. -/
theorem alookup_get_combined_fold (insts : List (String × Entry))
    (c : Entry) (k : String) (cur : Value)
    (hk : k ≠ "lora_sensors") (hcur : alookup c k = some cur) :
    alookup (insts.foldl
      (fun c p => p.2.foldl (fun c kv => combineField c kv.1 kv.2) c)
      c) k =
      some (scalarFold cur
        ((insts.map Prod.snd).flatMap (entryValuesOf k))) := by
  induction insts generalizing c cur with
  | nil => simpa [scalarFold] using hcur
  | cons p rest ih =>
    rw [List.foldl_cons, List.map_cons, List.flatMap_cons]
    rw [show scalarFold cur (entryValuesOf k p.2 ++
        (rest.map Prod.snd).flatMap (entryValuesOf k)) =
        scalarFold (scalarFold cur (entryValuesOf k p.2))
          ((rest.map Prod.snd).flatMap (entryValuesOf k)) from by
      simp [scalarFold]]
    exact ih _ _ (alookup_foldl_combine p.2 c k cur hk hcur)

/-- C6: `get_combined` folds all entries, in the store's deterministic
iteration order, so that for each legacy scalar field the last non-null
value encountered wins and nulls never overwrite (the fold starts from
the template's default); and on the spec's example — instrument A with
`temperature: 10`, instrument B with `temperature: null, humidity: 60`
— the combined reading keeps `temperature: 10`, gains `humidity: 60`,
and the `lora_sensors` keys of both instruments accumulate. -/
theorem C6_get_combined :
    (∀ (s : MultiInstrumentDataStore) (k : String) (i : Value),
      k ≠ "lora_sensors" → alookup combinedInit k = some i →
      alookup s.get_combined k = some (scalarFold i (valuesOf k s))) ∧
    alookup (get_combined storeAB) "temperature" = some (.vInt 10) ∧
    alookup (get_combined storeAB) "humidity" = some (.vInt 60) ∧
    alookup (get_combined storeAB) "lora_sensors" =
      some (.vDict [("la", .vInt 1), ("lb", .vInt 2)]) := by
  refine ⟨?_, rfl, rfl, rfl⟩
  intro s k i hk hi
  unfold MultiInstrumentDataStore.get_combined valuesOf
  exact alookup_get_combined_fold s.instruments combinedInit k i hk hi

/-- C6 witness: the fold law applied at the example store and a
concrete field. -/
theorem C6_get_combined_witness :
    alookup storeAB.get_combined "humidity" =
      some (scalarFold .vNull (valuesOf "humidity" storeAB)) :=
  C6_get_combined.1 storeAB "humidity" .vNull (by decide) rfl

/-- C9 witness: the promotion semantics applied at concrete reader
states. -/
theorem C9_promotion_semantics_witness :
    (weatherlink_resolve_step ⟨"davis-10-0-0-2", false⟩ none).promoted =
      true ∧
    sqm_resolve_step ⟨"sqm-41", true⟩ (some "99") = ⟨"sqm-41", true⟩ ∧
    attemptsLookup (sqm_resolve_step ⟨"sqm-10-0-0-3", false⟩ none) =
      true :=
  ⟨(C9_promotion_semantics.1 ⟨"davis-10-0-0-2", false⟩ rfl).1,
   (C9_promotion_semantics.2.1 ⟨"sqm-41", true⟩ (some "99") rfl).1,
   (C9_promotion_semantics.2.2 ⟨"sqm-10-0-0-3", false⟩ rfl).2⟩

end Collector
